import Mathlib

/-!
Shallow embedding of `zellij-server/src/plugins/zellij_exports.rs`: the
host-guest plugin command bridge of zellij.  Pure data is translated
directly; side effects (channel sends, logging, process spawning, guest
channel writes, timer-thread spawning) are made explicit as a trace of
`Effect` values; Rust panics are made explicit through `PanicOr`; external
collaborators (protobuf decoding, URL/layout parsing, the process spawner,
the current directory) are passed in as a `Host` record of functions, so
every theorem quantifies over their behaviour.  Machine floats (`f32`,
`f64` durations) are modelled as rationals.
-/

namespace Zellij

/-- Modelled from the spec: `EventType` is a lightweight enum key for event
classes (the type lives in `zellij-utils`, outside this file); the spec's
scenarios name `Key` and `Timer` among its variants.  The claims quantify
over sets of these keys, so the exact variant list is immaterial. -/
inductive EventType where
  | ModeUpdate
  | TabUpdate
  | PaneUpdate
  | Key
  | Mouse
  | Timer
  | CopyToClipboard
  | SystemClipboardFailure
  | InputReceived
  | Visible
  | CustomMessage
  | FileSystemCreate
  | FileSystemRead
  | FileSystemUpdate
  | FileSystemDelete
deriving DecidableEq, Repr

/-- Modelled from the spec: `Event` carries the same tag as `EventType`
plus data, e.g. the measured elapsed time for a timer (a `f64` in the
source, modelled as a rational).  Only the `Timer` variant is constructed
in this file. -/
inductive Event where
  | Timer (elapsed : ℚ)
  | Key (bytes : List Nat)
  | CustomMessage (name : String) (payload : String)
deriving DecidableEq, Repr

/-- Direction enum from `zellij-utils::data`. -/
inductive Direction where
  | Left
  | Right
  | Up
  | Down
deriving DecidableEq, Repr

/-- Input mode enum from `zellij-utils::data` (only carried through). -/
inductive InputMode where
  | Normal
  | Locked
  | Resize
  | Pane
  | Tab
  | Scroll
  | Search
  | EnterSearch
  | RenameTab
  | RenamePane
  | Session
  | Move
  | Prompt
  | Tmux
deriving DecidableEq, Repr

/-- Resize enum from `zellij-utils::data`. -/
inductive Resize where
  | Increase
  | Decrease
deriving DecidableEq, Repr

/-- ResizeStrategy from `zellij-utils::data`: a resize plus an optional
direction. -/
structure ResizeStrategy where
  resize : Resize
  direction : Option Direction
deriving DecidableEq, Repr

/-- RunCommand from `zellij-utils::input::command`; paths are modelled as
strings.  `RunCommand::default()` is the structure's default value. -/
structure RunCommand where
  command : String := ""
  args : List String := []
  cwd : Option String := none
  hold_on_close : Bool := false
deriving DecidableEq, Repr

/-- RunCommandAction from `zellij-utils::input::command`. -/
structure RunCommandAction where
  command : String
  args : List String
  cwd : Option String
  direction : Option Direction
  hold_on_close : Bool
  hold_on_start : Bool
deriving DecidableEq, Repr

/-- TerminalAction from `zellij-utils::input::command`. -/
inductive TerminalAction where
  | RunCommand (run_command : RunCommand)
  | OpenFile (path : String) (line_number : Option Nat) (cwd : Option String)
deriving DecidableEq, Repr

/-- Embedding of `TerminalAction::change_cwd` as used by `open_terminal` and
`open_terminal_floating`: on the `RunCommand` variant the working directory
is replaced.  The `OpenFile` case is immaterial here because both callers
immediately discard non-`RunCommand` values, so it is left unchanged. -/
def TerminalAction.change_cwd (t : TerminalAction) (cwd : String) : TerminalAction :=
  match t with
  | .RunCommand rc => .RunCommand { rc with cwd := some cwd }
  | .OpenFile p l c => .OpenFile p l c

/-- Embedding of the `From<RunCommand> for RunCommandAction` conversion used
by `open_terminal`: the fields are carried over, pane direction is absent
and `hold_on_start` is off. -/
def RunCommandAction.ofRunCommand (rc : RunCommand) : RunCommandAction :=
  { command := rc.command
    args := rc.args
    cwd := rc.cwd
    direction := none
    hold_on_close := rc.hold_on_close
    hold_on_start := false }

/-- FileToOpen from `zellij-utils::data`; paths modelled as strings. -/
structure FileToOpen where
  path : String
  line_number : Option Nat
  cwd : Option String
deriving DecidableEq, Repr

/-- CommandToRun from `zellij-utils::data`. -/
structure CommandToRun where
  path : String
  args : List String
  cwd : Option String
deriving DecidableEq, Repr

/-- PluginMessage from `zellij-utils::data`: a named payload with an
optional worker name. -/
structure PluginMessage where
  name : String
  payload : String
  worker_name : Option String
deriving DecidableEq, Repr

/-- PluginIds reply payload built by `get_plugin_ids`. -/
structure PluginIds where
  plugin_id : Nat
  zellij_pid : Nat
deriving DecidableEq, Repr

/-- RunPluginLocation from `zellij-utils::input::layout`; kept opaque as a
rendered string since only its identity matters here. -/
structure RunPluginLocation where
  rendered : String
deriving DecidableEq, Repr

/-- RunPlugin from `zellij-utils::input::layout`: a plugin location plus the
exec-host-command permission flag, named `_allow_exec_host_cmd` in the
source. -/
structure RunPlugin where
  location : RunPluginLocation
  _allow_exec_host_cmd : Bool
deriving DecidableEq, Repr

/-- Opaque stand-in for a tiled pane layout subtree (parsed elsewhere). -/
structure TiledPaneLayout where
  tag : Nat := 0
deriving DecidableEq, Repr

/-- Opaque stand-in for a floating pane layout (parsed elsewhere). -/
structure FloatingPaneLayout where
  tag : Nat := 0
deriving DecidableEq, Repr

/-- Opaque stand-in for a swap tiled layout (parsed elsewhere). -/
structure SwapTiledLayout where
  tag : Nat := 0
deriving DecidableEq, Repr

/-- Opaque stand-in for a swap floating layout (parsed elsewhere). -/
structure SwapFloatingLayout where
  tag : Nat := 0
deriving DecidableEq, Repr

/-- The parts of `zellij-utils::input::layout::Layout` read by
`new_tabs_with_layout`: an optional template, the per-tab layouts, and the
swap layout lists. -/
structure Layout where
  template : Option (TiledPaneLayout × List FloatingPaneLayout)
  tabs : List (Option String × TiledPaneLayout × List FloatingPaneLayout)
  swap_tiled_layouts : List SwapTiledLayout
  swap_floating_layouts : List SwapFloatingLayout
deriving DecidableEq, Repr

/-- PaneId from `zellij-server::panes`. -/
inductive PaneId where
  | Terminal (id : Nat)
  | Plugin (id : Nat)
deriving DecidableEq, Repr

/-- PluginType from `zellij-utils::input::plugins`: pane-hosted (with an
optional tab index) or headless. -/
inductive PluginType where
  | Pane (tab_index : Option Nat)
  | Headless
deriving DecidableEq, Repr

/-- The fields of the plugin's configuration record that this file reads:
`env.plugin_env.plugin.run`, `.location` and `._allow_exec_host_cmd`. -/
structure PluginConfig where
  run : PluginType
  location : String
  _allow_exec_host_cmd : Bool
deriving DecidableEq, Repr

/-- The `Action` variants constructed in `zellij_exports.rs` (the host's
user-intent union from `zellij-utils::input::actions`; variants this file
never builds are omitted).  Byte vectors are `List Nat`, paths strings. -/
inductive Action where
  | EditFile (path : String) (line_number : Option Nat) (cwd : Option String)
      (direction : Option Direction) (floating : Bool)
  | NewTiledPane (direction : Option Direction) (run : Option RunCommandAction)
      (pane_name : Option String)
  | NewFloatingPane (run : Option RunCommandAction) (pane_name : Option String)
  | SwitchToMode (mode : InputMode)
  | NewTab (tiled : Option TiledPaneLayout) (floating : List FloatingPaneLayout)
      (swap_tiled : Option (List SwapTiledLayout))
      (swap_floating : Option (List SwapFloatingLayout)) (tab_name : Option String)
  | GoToNextTab
  | GoToPreviousTab
  | Resize (payload : Resize) (direction : Option Direction)
  | FocusNextPane
  | FocusPreviousPane
  | MoveFocus (direction : Direction)
  | MoveFocusOrTab (direction : Direction)
  | Detach
  | EditScrollback
  | Write (bytes : List Nat)
  | WriteChars (chars : String)
  | ToggleTab
  | MovePane (direction : Option Direction)
  | ClearScreen
  | ScrollUp
  | ScrollDown
  | ScrollToTop
  | ScrollToBottom
  | PageScrollUp
  | PageScrollDown
  | ToggleFocusFullscreen
  | TogglePaneFrames
  | TogglePaneEmbedOrFloating
  | UndoRenamePane
  | CloseFocus
  | ToggleActiveSyncTab
  | CloseTab
  | UndoRenameTab
  | Quit
  | PreviousSwapLayout
  | NextSwapLayout
  | GoToTabName (tab_name : String) (create : Bool)
  | GoToTab (tab_index : Nat)
  | StartOrReloadPlugin (run_plugin : RunPlugin)
  | CloseTerminalPane (id : Nat)
  | ClosePluginPane (id : Nat)
  | FocusTerminalPaneWithId (id : Nat) (should_float_if_hidden : Bool)
  | FocusPluginPaneWithId (id : Nat) (should_float_if_hidden : Bool)
  | RenameTerminalPane (id : Nat) (new_name : List Nat)
  | RenamePluginPane (id : Nat) (new_name : List Nat)
  | RenameTab (tab_index : Nat) (new_name : List Nat)
deriving DecidableEq, Repr

/-- The `PluginCommand` union exactly as matched by
`host_run_plugin_command` (one constructor per match arm).  `SwitchToMode`
carries the still-unconverted wire tag (its `try_into` happens inside the
dispatcher), and `OpenTerminal`/`OpenTerminalFloating` carry the wire
`FileToOpen` whose path is converted inside the dispatcher, matching the
source. -/
inductive PluginCommand where
  | Subscribe (event_list : Finset EventType)
  | Unsubscribe (event_list : Finset EventType)
  | SetSelectable (selectable : Bool)
  | GetPluginIds
  | GetZellijVersion
  | OpenFile (file_to_open : FileToOpen)
  | OpenFileFloating (file_to_open : FileToOpen)
  | OpenTerminal (cwd : FileToOpen)
  | OpenTerminalFloating (cwd : FileToOpen)
  | OpenCommandPane (command_to_run : CommandToRun)
  | OpenCommandPaneFloating (command_to_run : CommandToRun)
  | SwitchTabTo (tab_index : Nat)
  | SetTimeout (seconds : ℚ)
  | ExecCmd (command_line : List String)
  | PostMessageTo (plugin_message : PluginMessage)
  | PostMessageToPlugin (plugin_message : PluginMessage)
  | HideSelf
  | ShowSelf (should_float_if_hidden : Bool)
  | SwitchToMode (input_mode : Nat)
  | NewTabsWithLayout (raw_layout : String)
  | NewTab
  | GoToNextTab
  | GoToPreviousTab
  | Resize (payload : Resize)
  | ResizeWithDirection (strategy : ResizeStrategy)
  | FocusNextPane
  | FocusPreviousPane
  | MoveFocus (direction : Direction)
  | MoveFocusOrTab (direction : Direction)
  | Detach
  | EditScrollback
  | Write (bytes : List Nat)
  | WriteChars (chars : String)
  | ToggleTab
  | MovePane
  | MovePaneWithDirection (direction : Direction)
  | ClearScreen
  | ScrollUp
  | ScrollDown
  | ScrollToTop
  | ScrollToBottom
  | PageScrollUp
  | PageScrollDown
  | ToggleFocusFullscreen
  | TogglePaneFrames
  | TogglePaneEmbedOrEject
  | UndoRenamePane
  | CloseFocus
  | ToggleActiveTabSync
  | CloseFocusedTab
  | UndoRenameTab
  | QuitZellij
  | PreviousSwapLayout
  | NextSwapLayout
  | GoToTabName (tab_name : String)
  | FocusOrCreateTab (tab_name : String)
  | GoToTab (tab_index : Nat)
  | StartOrReloadPlugin (plugin_url : String)
  | CloseTerminalPane (terminal_pane_id : Nat)
  | ClosePluginPane (plugin_pane_id : Nat)
  | FocusTerminalPane (terminal_pane_id : Nat) (should_float_if_hidden : Bool)
  | FocusPluginPane (plugin_pane_id : Nat) (should_float_if_hidden : Bool)
  | RenameTerminalPane (terminal_pane_id : Nat) (new_name : String)
  | RenamePluginPane (plugin_pane_id : Nat) (new_name : String)
  | RenameTab (tab_index : Nat) (new_name : String)
  | ReportPanic (crash_payload : String)

/-- The data a `set_timeout` call moves onto its spawned timer thread: the
cloned plugin-channel sender handle, the update target (`Some plugin_id`),
the client id, the plugin name for diagnostics, and the requested delay. -/
structure TimerTask where
  send_plugin_instructions : Option Unit
  update_target : Option Nat
  client_id : Nat
  plugin_name : String
  secs : ℚ
deriving DecidableEq, Repr

/-- The `PluginInstruction` variants sent on the plugin channel by this
file. -/
inductive PluginInstruction where
  | PluginSubscribedToEvents (plugin_id : Nat) (client_id : Nat)
      (events : Finset EventType)
  | Update (updates : List (Option Nat × Option Nat × Event))
  | PostMessagesToPluginWorker (plugin_id : Nat) (client_id : Nat)
      (worker_name : String) (messages : List (String × String))
  | PostMessageToPlugin (plugin_id : Nat) (client_id : Nat)
      (message_name : String) (payload : String)
deriving DecidableEq

/-- The `ScreenInstruction` variants sent on the screen channel by this
file. -/
inductive ScreenInstruction where
  | SetSelectable (pane : PaneId) (selectable : Bool) (tab_index : Nat)
  | GoToTab (tab_index : Nat) (client_id : Option Nat)
  | SuppressPane (pane : PaneId) (client_id : Nat)
deriving DecidableEq, Repr

/-- Observable side effects of the bridge, in program order.
`ActionForward` records a call of `route_action` with the built action and
the calling client id; `SpawnTimerThread` records the thread spawned by
`set_timeout`; `SpawnProcess` records a successfully spawned detached
process; `HandlePluginCrash` records the call into the plugin-lifecycle
collaborator; the `Log*` variants record log lines at their level. -/
inductive Effect where
  | ActionForward (action : Action) (client_id : Nat)
  | PluginInstr (instruction : PluginInstruction)
  | ScreenInstr (instruction : ScreenInstruction)
  | GuestWrite (text : String)
  | SpawnProcess (command : String) (args : List String)
  | SpawnTimerThread (task : TimerTask)
  | HandlePluginCrash (plugin_id : Nat) (message : String)
  | LogError (message : String)
  | LogWarn (message : String)
  | LogDebug (message : String)
deriving DecidableEq

/-- Result of running Rust code that may panic: either an unwinding panic
with its message, or a normal return. -/
inductive PanicOr (α : Type) where
  | panicked (message : String)
  | returned (val : α)
deriving DecidableEq, Repr

/-- True when the run ended in a panic. -/
def PanicOr.isPanicked : PanicOr α → Bool
  | .panicked _ => true
  | .returned _ => false

/-- What a dispatched command produced: the handler's `Result` value, the
subscription registry afterwards, and the effect trace so far (effects that
happened before a handler error are kept, matching the source's partial
mutation through shared state). -/
structure DispatchOut where
  result : Except String Unit
  subscriptions : Finset EventType
  effects : List Effect

/-- A protobuf-encoded plugin command envelope, kept opaque (generated
code outside this file decodes it). -/
structure ProtobufPluginCommand where
  bytes : List Nat
deriving DecidableEq, Repr

/-- External collaborators of `zellij_exports.rs`, as a record of the
functions the file calls but does not define: protobuf decode and
conversion, serde-json framing, layout/URL/location parsing, the input-mode
and path conversions, the version constant, the host process id, the
current directory, and the outcome of `process::Command::spawn`.  Theorems
quantify over this record. -/
structure Host where
  from_str_bytes : String → Except String (List Nat)
  decode_command : List Nat → Except String ProtobufPluginCommand
  command_try_into : ProtobufPluginCommand → Except String PluginCommand
  layout_from_str : String → String → Except String Layout
  url_parse : String → Except String String
  run_plugin_location_parse : String → Option String → Except String RunPluginLocation
  input_mode_try_from : Nat → Except String InputMode
  path_try_into : String → Except String String
  plugin_ids_encode : PluginIds → Except String (List Nat)
  json_to_string : List Nat → Except String String
  version : String
  zellij_version_encode : String → List Nat
  process_id : Nat
  current_dir : Option String
  spawn : String → List String → Except String Unit

/-- The two channel sender handles of `env.plugin_env.senders` used here;
`some ()` means the sender is present and its queue reachable, `none`
models a torn-down endpoint whose send fails. -/
structure ThreadSenders where
  to_plugin : Option Unit
  to_screen : Option Unit
deriving DecidableEq, Repr

/-- The guest-side WASI channel endpoints: whether the guest's stdin is
available for host writes, and the guest's accumulated stdout contents (as
a string, abstracting the lossy UTF-8 decode), `none` when unavailable. -/
structure WasiEnv where
  stdin_open : Bool
  stdout_contents : Option String
deriving DecidableEq, Repr

/-- The fields of `PluginEnv` this file reads.  `name` embeds the
`env.plugin_env.name()` diagnostic string; `routing_fails` models the
success or failure of the external `route_action` collaborator for this
call context (its error is what the `apply_action!` macro logs). -/
structure PluginEnv where
  plugin_id : Nat
  client_id : Nat
  plugin : PluginConfig
  senders : ThreadSenders
  default_shell : Option TerminalAction
  name : String
  wasi_env : WasiEnv
  routing_fails : Bool

/-- Embedding of `senders.send_to_plugin`: fails when the plugin-channel
sender is gone, otherwise the instruction appears on the channel. -/
def ThreadSenders.send_to_plugin (s : ThreadSenders) (instruction : PluginInstruction) :
    Except String (List Effect) :=
  match s.to_plugin with
  | some _ => .ok [Effect.PluginInstr instruction]
  | none => .error "failed to send message to plugin"

/-- Embedding of `senders.send_to_screen`: fails when the screen-channel
sender is gone, otherwise the instruction appears on the channel. -/
def ThreadSenders.send_to_screen (s : ThreadSenders) (instruction : ScreenInstruction) :
    Except String (List Effect) :=
  match s.to_screen with
  | some _ => .ok [Effect.ScreenInstr instruction]
  | none => .error "failed to send message to screen"

/-- Embedding of the `apply_action!` macro: hand the built action to
`route_action` together with the calling client id and the ambient
settings; a router error is logged with the per-command message and never
propagates. -/
def apply_action (env : PluginEnv) (action : Action) (error_msg : String) : List Effect :=
  if env.routing_fails then
    [Effect.ActionForward action env.client_id,
     Effect.LogError (error_msg ++ ": routing error")]
  else
    [Effect.ActionForward action env.client_id]

/-- Character-level embedding of `buf.replace("\n", "\n\r")` for the
single-character pattern `"\n"`: each newline is followed by a carriage
return, every other character is kept. -/
def replaceNewline : List Char → List Char
  | [] => []
  | c :: cs =>
    if c = '\n' then '\n' :: '\x0d' :: replaceNewline cs
    else c :: replaceNewline cs

/-- String form of `replaceNewline`. -/
def String.replaceNewline (s : String) : String :=
  ⟨Zellij.replaceNewline s.data⟩

/-- Embedding of `wasi_read_string`: read the guest's whole stdout buffer
(failing when the endpoint is unavailable), then replace each bare newline
with newline plus carriage return. -/
def wasi_read_string (wasi_env : WasiEnv) : Except String String :=
  match wasi_env.stdout_contents with
  | none => .error "failed to read string from WASI env"
  | some buf => .ok (String.replaceNewline buf)

/-- Embedding of `wasi_write_string`: `writeln!(stdin, "(buf)\r")` writes
the buffer, a carriage return, then the newline delimiter; it fails when
the guest stdin endpoint is unavailable. -/
def wasi_write_string (wasi_env : WasiEnv) (buf : String) : Except String (List Effect) :=
  if wasi_env.stdin_open then
    .ok [Effect.GuestWrite (buf ++ "\x0d\n")]
  else
    .error "failed to write string to WASI env"

/-- Embedding of `wasi_write_object`: serialize with serde-json (an
external fallible step) and write the resulting string to the guest. -/
def wasi_write_object (host : Host) (wasi_env : WasiEnv) (object : List Nat) :
    Except String (List Effect) :=
  match host.json_to_string object with
  | .error e => .error ("failed to serialize object for WASI env: " ++ e)
  | .ok s => wasi_write_string wasi_env s

/-- Embedding of `wasi_read_bytes`: read the guest string (newline
replacement included), then deserialize it as a byte vector with
serde-json. -/
def wasi_read_bytes (host : Host) (wasi_env : WasiEnv) : Except String (List Nat) :=
  match wasi_read_string wasi_env with
  | .error e => .error e
  | .ok s =>
    match host.from_str_bytes s with
    | .error e => .error ("failed to deserialize object from WASI env: " ++ e)
    | .ok bytes => .ok bytes

/-- Embedding of `subscribe`: union the requested keys into the registry
under the lock, then forward the full delta (the requested set itself, with
the caller's plugin and client ids) on the plugin-instruction channel.
Returns the registry after the call and the handler's `Result` carrying the
send's effects. -/
def subscribe (env : PluginEnv) (event_list : Finset EventType)
    (subscriptions : Finset EventType) :
    Finset EventType × Except String (List Effect) :=
  let subscriptions := subscriptions ∪ event_list
  (subscriptions,
    env.senders.send_to_plugin
      (.PluginSubscribedToEvents env.plugin_id env.client_id event_list))

/-- Embedding of `unsubscribe`: retain exactly the keys not in the given
set; no channel notification. -/
def unsubscribe (_env : PluginEnv) (event_list : Finset EventType)
    (subscriptions : Finset EventType) :
    Finset EventType × Except String (List Effect) :=
  (subscriptions.filter (fun k => k ∉ event_list), .ok [])

/-- Embedding of `set_selectable`: meaningful only for a pane-hosted plugin
with a tab index, where it sends a screen instruction (send failure logged
non-fatally); otherwise a debug log line documents the no-op. -/
def set_selectable (env : PluginEnv) (selectable : Bool) : List Effect :=
  match env.plugin.run with
  | .Pane (some tab_index) =>
    match env.senders.send_to_screen
        (.SetSelectable (.Plugin env.plugin_id) selectable tab_index) with
    | .ok effs => effs
    | .error e =>
      [Effect.LogError ("failed to set plugin selectable from plugin " ++
        env.name ++ ": " ++ e)]
  | _ =>
    [Effect.LogDebug (env.plugin.location ++
      " - Calling method \x27set_selectable\x27 does nothing for headless plugins")]

/-- Embedding of `get_plugin_ids`: build the ids record (host process id
from the host), protobuf-encode it (fallible), and write it synchronously
to the guest channel; any failure is logged non-fatally. -/
def get_plugin_ids (host : Host) (env : PluginEnv) : List Effect :=
  let ids : PluginIds := { plugin_id := env.plugin_id, zellij_pid := host.process_id }
  match (host.plugin_ids_encode ids).bind (wasi_write_object host env.wasi_env) with
  | .ok effs => effs
  | .error e =>
    [Effect.LogError ("failed to query plugin IDs from host for plugin " ++
      env.name ++ ": " ++ e)]

/-- Embedding of `get_zellij_version`: protobuf-encode the version constant
and write it synchronously to the guest channel; failure is logged
non-fatally. -/
def get_zellij_version (host : Host) (env : PluginEnv) : List Effect :=
  match wasi_write_object host env.wasi_env (host.zellij_version_encode host.version) with
  | .ok effs => effs
  | .error e =>
    [Effect.LogError ("failed to request zellij version from host for plugin " ++
      env.name ++ ": " ++ e)]

/-- Embedding of `open_file`: a non-floating `EditFile` action. -/
def open_file (env : PluginEnv) (file_to_open : FileToOpen) : List Effect :=
  let error_msg := "failed to open file in plugin " ++ env.name
  let floating := false
  apply_action env
    (.EditFile file_to_open.path file_to_open.line_number file_to_open.cwd none floating)
    error_msg

/-- Embedding of `open_file_floating`: a floating `EditFile` action. -/
def open_file_floating (env : PluginEnv) (file_to_open : FileToOpen) : List Effect :=
  let error_msg := "failed to open file in plugin " ++ env.name
  let floating := true
  apply_action env
    (.EditFile file_to_open.path file_to_open.line_number file_to_open.cwd none floating)
    error_msg

/-- Embedding of `open_terminal`: rebase the default shell on the given
cwd and open a tiled pane running it. -/
def open_terminal (env : PluginEnv) (cwd : String) : List Effect :=
  let error_msg := "failed to open file in plugin " ++ env.name
  let default_shell :=
    (env.default_shell.getD (TerminalAction.RunCommand {})).change_cwd cwd
  let run_command_action : Option RunCommandAction :=
    match default_shell with
    | .RunCommand run_command => some (RunCommandAction.ofRunCommand run_command)
    | _ => none
  apply_action env (.NewTiledPane none run_command_action none) error_msg

/-- Embedding of `open_terminal_floating`: like `open_terminal` but the new
pane floats. -/
def open_terminal_floating (env : PluginEnv) (cwd : String) : List Effect :=
  let error_msg := "failed to open file in plugin " ++ env.name
  let default_shell :=
    (env.default_shell.getD (TerminalAction.RunCommand {})).change_cwd cwd
  let run_command_action : Option RunCommandAction :=
    match default_shell with
    | .RunCommand run_command => some (RunCommandAction.ofRunCommand run_command)
    | _ => none
  apply_action env (.NewFloatingPane run_command_action none) error_msg

/-- Embedding of `open_command_pane`: a tiled pane holding the given
command, held on close. -/
def open_command_pane (env : PluginEnv) (command_to_run : CommandToRun) : List Effect :=
  let error_msg := "failed to open command in plugin " ++ env.name
  let run_command_action : RunCommandAction :=
    { command := command_to_run.path
      args := command_to_run.args
      cwd := command_to_run.cwd
      direction := none
      hold_on_close := true
      hold_on_start := false }
  apply_action env (.NewTiledPane none (some run_command_action) none) error_msg

/-- Embedding of `open_command_pane_floating`: floating variant of
`open_command_pane`. -/
def open_command_pane_floating (env : PluginEnv) (command_to_run : CommandToRun) :
    List Effect :=
  let error_msg := "failed to open command in plugin " ++ env.name
  let run_command_action : RunCommandAction :=
    { command := command_to_run.path
      args := command_to_run.args
      cwd := command_to_run.cwd
      direction := none
      hold_on_close := true
      hold_on_start := false }
  apply_action env (.NewFloatingPane (some run_command_action) none) error_msg

/-- Embedding of `switch_tab_to`: a direct screen instruction; a send
failure is logged non-fatally. -/
def switch_tab_to (env : PluginEnv) (tab_idx : Nat) : List Effect :=
  match env.senders.send_to_screen (.GoToTab tab_idx (some env.client_id)) with
  | .ok effs => effs
  | .error e =>
    [Effect.LogError ("failed to switch to tab from plugin " ++ env.name ++ ": " ++ e)]

/-- The timer task a `set_timeout` call spawns: it captures the cloned
plugin sender handle, the update target `Some plugin_id`, the client id,
the plugin name and the requested delay. -/
def set_timeout_task (env : PluginEnv) (secs : ℚ) : TimerTask :=
  { send_plugin_instructions := env.senders.to_plugin
    update_target := some env.plugin_id
    client_id := env.client_id
    plugin_name := env.name
    secs := secs }

/-- Effect of `set_timeout` on the calling thread: just the thread spawn. -/
def set_timeout (env : PluginEnv) (secs : ℚ) : List Effect :=
  [Effect.SpawnTimerThread (set_timeout_task env secs)]

/-- Embedding of the closure run by `set_timeout`'s spawned thread, with
the OS sleep abstracted as a function from a requested delay to the
measured elapsed wall-clock time around it: after sleeping, send one
`Update` carrying a `Timer` event with the measured elapsed time to the
captured target, or log the failure non-fatally when the sender handle is
gone. -/
def timer_thread (task : TimerTask) (sleep : ℚ → ℚ) : List Effect :=
  let elapsed_time := sleep task.secs
  match task.send_plugin_instructions with
  | none =>
    [Effect.LogError ("failed to set host timeout for plugin " ++ task.plugin_name ++
      ": found no sender to send plugin instruction to")]
  | some _ =>
    [Effect.PluginInstr
      (.Update [(task.update_target, some task.client_id, Event.Timer elapsed_time)])]

/-- The warning line `exec_cmd` logs when exec permission is absent: it
names the blocked command and its arguments (grammar as in the source). -/
def exec_cmd_warning (command : String) (command_line : List String) : String :=
  "This plugin isn\x27t allow to run command in host side, skip running this command: \x27" ++
    command ++ " " ++ String.intercalate " " command_line ++ "\x27."

/-- Embedding of `exec_cmd`: `command_line.remove(0)` panics on the empty
vector before anything else; then, with exec permission absent, exactly one
warning naming the blocked command is logged and nothing is spawned;
otherwise the process is spawned detached, a spawn failure being logged
non-fatally. -/
def exec_cmd (host : Host) (env : PluginEnv) (command_line : List String) :
    PanicOr (List Effect) :=
  match command_line with
  | [] => .panicked "removal index (is 0) should be < len (is 0)"
  | command :: command_line =>
    if !env.plugin._allow_exec_host_cmd then
      .returned [Effect.LogWarn (exec_cmd_warning command command_line)]
    else
      match host.spawn command command_line with
      | .ok _ => .returned [Effect.SpawnProcess command command_line]
      | .error e =>
        .returned
          [Effect.LogError ("failed to execute command on host for plugin \x27" ++
            env.name ++ "\x27: " ++ e)]

/-- Embedding of `post_message_to`: a missing worker name is an error
(nothing is sent); otherwise one worker-message instruction goes out on the
plugin channel. -/
def post_message_to (env : PluginEnv) (plugin_message : PluginMessage) :
    Except String (List Effect) :=
  match plugin_message.worker_name with
  | none => .error "Worker name not specified in message to worker"
  | some worker_name =>
    env.senders.send_to_plugin
      (.PostMessagesToPluginWorker env.plugin_id env.client_id worker_name
        [(plugin_message.name, plugin_message.payload)])

/-- Embedding of `post_message_to_plugin`: a present worker name is an
error (nothing is sent); otherwise one plugin-message instruction goes out
on the plugin channel. -/
def post_message_to_plugin (env : PluginEnv) (plugin_message : PluginMessage) :
    Except String (List Effect) :=
  match plugin_message.worker_name with
  | some worker_name =>
    .error ("Worker name (\"" ++ worker_name ++
      "\") should not be specified in message to plugin")
  | none =>
    env.senders.send_to_plugin
      (.PostMessageToPlugin env.plugin_id env.client_id
        plugin_message.name plugin_message.payload)

/-- Embedding of `hide_self`: a screen instruction suppressing the plugin's
own pane; the send's failure propagates as the handler's error. -/
def hide_self (env : PluginEnv) : Except String (List Effect) :=
  match env.senders.send_to_screen
      (.SuppressPane (.Plugin env.plugin_id) env.client_id) with
  | .ok effs => .ok effs
  | .error e => .error ("failed to hide self: " ++ e)

/-- Embedding of `show_self`: focus the plugin's own pane. -/
def show_self (env : PluginEnv) (should_float_if_hidden : Bool) : List Effect :=
  apply_action env (.FocusPluginPaneWithId env.plugin_id should_float_if_hidden)
    "Failed to show self for plugin"

/-- Embedding of `switch_to_mode` (after the wire conversion). -/
def switch_to_mode (env : PluginEnv) (input_mode : InputMode) : List Effect :=
  apply_action env (.SwitchToMode input_mode)
    ("failed to switch to mode in plugin " ++ env.name)

/-- Embedding of `new_tabs_with_layout`: parse the raw layout text (a parse
failure is the handler's error), then forward one `NewTab` action per tab
of the layout, or a single template-derived `NewTab` when it has none. -/
def new_tabs_with_layout (host : Host) (env : PluginEnv) (raw_layout : String) :
    Except String (List Effect) :=
  match host.layout_from_str raw_layout ("Layout from plugin: " ++ env.name) with
  | .error e => .error ("Failed to parse layout: " ++ e)
  | .ok layout =>
    let tabs := layout.tabs
    let tabs_to_open : List Action :=
      if tabs.isEmpty then
        [Action.NewTab (layout.template.map (fun t => t.1))
          ((layout.template.map (fun t => t.2)).getD [])
          (some layout.swap_tiled_layouts) (some layout.swap_floating_layouts) none]
      else
        layout.tabs.map (fun t =>
          Action.NewTab (some t.2.1) t.2.2
            (some layout.swap_tiled_layouts) (some layout.swap_floating_layouts) t.1)
    .ok (tabs_to_open.flatMap (fun action =>
      apply_action env action "Failed to create layout tab"))

/-- Embedding of `new_tab`. -/
def new_tab (env : PluginEnv) : List Effect :=
  apply_action env (.NewTab none [] none none none) "Failed to open new tab"

/-- Embedding of `go_to_next_tab`. -/
def go_to_next_tab (env : PluginEnv) : List Effect :=
  apply_action env .GoToNextTab "Failed to go to next tab"

/-- Embedding of `go_to_previous_tab`. -/
def go_to_previous_tab (env : PluginEnv) : List Effect :=
  apply_action env .GoToPreviousTab "Failed to go to previous tab"

/-- Embedding of `resize`. -/
def resize (env : PluginEnv) (payload : Resize) : List Effect :=
  apply_action env (.Resize payload none)
    ("failed to resize in plugin " ++ env.name)

/-- Embedding of `resize_with_direction`. -/
def resize_with_direction (env : PluginEnv) (strategy : ResizeStrategy) : List Effect :=
  apply_action env (.Resize strategy.resize strategy.direction)
    ("failed to resize in plugin " ++ env.name)

/-- Embedding of `focus_next_pane`. -/
def focus_next_pane (env : PluginEnv) : List Effect :=
  apply_action env .FocusNextPane "Failed to focus next pane"

/-- Embedding of `focus_previous_pane`. -/
def focus_previous_pane (env : PluginEnv) : List Effect :=
  apply_action env .FocusPreviousPane "Failed to focus previous pane"

/-- Embedding of `move_focus`. -/
def move_focus (env : PluginEnv) (direction : Direction) : List Effect :=
  apply_action env (.MoveFocus direction)
    ("failed to move focus in plugin " ++ env.name)

/-- Embedding of `move_focus_or_tab`. -/
def move_focus_or_tab (env : PluginEnv) (direction : Direction) : List Effect :=
  apply_action env (.MoveFocusOrTab direction)
    ("failed to move focus in plugin " ++ env.name)

/-- Embedding of `detach`. -/
def detach (env : PluginEnv) : List Effect :=
  apply_action env .Detach "Failed to detach"

/-- Embedding of `edit_scrollback`. -/
def edit_scrollback (env : PluginEnv) : List Effect :=
  apply_action env .EditScrollback "Failed to edit scrollback"

/-- Embedding of `write`. -/
def write (env : PluginEnv) (bytes : List Nat) : List Effect :=
  apply_action env (.Write bytes) ("failed to write in plugin " ++ env.name)

/-- Embedding of `write_chars`. -/
def write_chars (env : PluginEnv) (chars_to_write : String) : List Effect :=
  apply_action env (.WriteChars chars_to_write)
    ("failed to write in plugin " ++ env.name)

/-- Embedding of `toggle_tab`. -/
def toggle_tab (env : PluginEnv) : List Effect :=
  apply_action env .ToggleTab "Failed to toggle tab"

/-- Embedding of `move_pane`. -/
def move_pane (env : PluginEnv) : List Effect :=
  apply_action env (.MovePane none)
    ("failed to move pane in plugin " ++ env.name)

/-- Embedding of `move_pane_with_direction`. -/
def move_pane_with_direction (env : PluginEnv) (direction : Direction) : List Effect :=
  apply_action env (.MovePane (some direction))
    ("failed to move pane in plugin " ++ env.name)

/-- Embedding of `clear_screen`. -/
def clear_screen (env : PluginEnv) : List Effect :=
  apply_action env .ClearScreen
    ("failed to clear screen in plugin " ++ env.name)

/-- Embedding of `scroll_up`. -/
def scroll_up (env : PluginEnv) : List Effect :=
  apply_action env .ScrollUp ("failed to scroll up in plugin " ++ env.name)

/-- Embedding of `scroll_down`. -/
def scroll_down (env : PluginEnv) : List Effect :=
  apply_action env .ScrollDown ("failed to scroll down in plugin " ++ env.name)

/-- Embedding of `scroll_to_top`. -/
def scroll_to_top (env : PluginEnv) : List Effect :=
  apply_action env .ScrollToTop ("failed to scroll in plugin " ++ env.name)

/-- Embedding of `scroll_to_bottom`. -/
def scroll_to_bottom (env : PluginEnv) : List Effect :=
  apply_action env .ScrollToBottom ("failed to scroll in plugin " ++ env.name)

/-- Embedding of `page_scroll_up`. -/
def page_scroll_up (env : PluginEnv) : List Effect :=
  apply_action env .PageScrollUp ("failed to scroll in plugin " ++ env.name)

/-- Embedding of `page_scroll_down`. -/
def page_scroll_down (env : PluginEnv) : List Effect :=
  apply_action env .PageScrollDown ("failed to scroll in plugin " ++ env.name)

/-- Embedding of `toggle_focus_fullscreen`. -/
def toggle_focus_fullscreen (env : PluginEnv) : List Effect :=
  apply_action env .ToggleFocusFullscreen
    ("failed to toggle full screen in plugin " ++ env.name)

/-- Embedding of `toggle_pane_frames`. -/
def toggle_pane_frames (env : PluginEnv) : List Effect :=
  apply_action env .TogglePaneFrames
    ("failed to toggle full screen in plugin " ++ env.name)

/-- Embedding of `toggle_pane_embed_or_eject`. -/
def toggle_pane_embed_or_eject (env : PluginEnv) : List Effect :=
  apply_action env .TogglePaneEmbedOrFloating
    ("failed to toggle pane embed or eject in plugin " ++ env.name)

/-- Embedding of `undo_rename_pane`. -/
def undo_rename_pane (env : PluginEnv) : List Effect :=
  apply_action env .UndoRenamePane
    ("failed to undo rename pane in plugin " ++ env.name)

/-- Embedding of `close_focus`. -/
def close_focus (env : PluginEnv) : List Effect :=
  apply_action env .CloseFocus
    ("failed to close focused pane in plugin " ++ env.name)

/-- Embedding of `toggle_active_tab_sync`. -/
def toggle_active_tab_sync (env : PluginEnv) : List Effect :=
  apply_action env .ToggleActiveSyncTab
    ("failed to toggle active tab sync in plugin " ++ env.name)

/-- Embedding of `close_focused_tab`. -/
def close_focused_tab (env : PluginEnv) : List Effect :=
  apply_action env .CloseTab
    ("failed to close active tab in plugin " ++ env.name)

/-- Embedding of `undo_rename_tab`. -/
def undo_rename_tab (env : PluginEnv) : List Effect :=
  apply_action env .UndoRenameTab
    ("failed to undo rename tab in plugin " ++ env.name)

/-- Embedding of `quit_zellij`. -/
def quit_zellij (env : PluginEnv) : List Effect :=
  apply_action env .Quit ("failed to quit zellij in plugin " ++ env.name)

/-- Embedding of `previous_swap_layout`. -/
def previous_swap_layout (env : PluginEnv) : List Effect :=
  apply_action env .PreviousSwapLayout
    ("failed to switch swap layout in plugin " ++ env.name)

/-- Embedding of `next_swap_layout`. -/
def next_swap_layout (env : PluginEnv) : List Effect :=
  apply_action env .NextSwapLayout
    ("failed to switch swap layout in plugin " ++ env.name)

/-- Embedding of `go_to_tab_name` (no tab creation). -/
def go_to_tab_name (env : PluginEnv) (tab_name : String) : List Effect :=
  let create := false
  apply_action env (.GoToTabName tab_name create)
    ("failed to change tab in plugin " ++ env.name)

/-- Embedding of `focus_or_create_tab` (creates when absent). -/
def focus_or_create_tab (env : PluginEnv) (tab_name : String) : List Effect :=
  let create := true
  apply_action env (.GoToTabName tab_name create)
    ("failed to change or create tab in plugin " ++ env.name)

/-- Embedding of `go_to_tab`. -/
def go_to_tab (env : PluginEnv) (tab_index : Nat) : List Effect :=
  apply_action env (.GoToTab tab_index)
    ("failed to change tab focus in plugin " ++ env.name)

/-- Embedding of `start_or_reload_plugin`: parse the URL then the plugin
location relative to the current directory (each parse failure is the
handler's error), then forward a `StartOrReloadPlugin` action whose
`RunPlugin` record has the exec-host-command flag hard-coded to `false`. -/
def start_or_reload_plugin (host : Host) (env : PluginEnv) (url : String) :
    Except String (List Effect) :=
  let error_msg := "failed to start or reload plugin in plugin " ++ env.name
  let cwd := host.current_dir.getD "."
  match host.url_parse url with
  | .error e => .error ("Failed to parse url: " ++ e)
  | .ok url =>
    match host.run_plugin_location_parse url (some cwd) with
    | .error e => .error ("Failed to parse plugin location: " ++ e)
    | .ok run_plugin_location =>
      let run_plugin : RunPlugin :=
        { location := run_plugin_location, _allow_exec_host_cmd := false }
      .ok (apply_action env (.StartOrReloadPlugin run_plugin) error_msg)

/-- Embedding of `close_terminal_pane`. -/
def close_terminal_pane (env : PluginEnv) (terminal_pane_id : Nat) : List Effect :=
  apply_action env (.CloseTerminalPane terminal_pane_id)
    ("failed to change tab focus in plugin " ++ env.name)

/-- Embedding of `close_plugin_pane`. -/
def close_plugin_pane (env : PluginEnv) (plugin_pane_id : Nat) : List Effect :=
  apply_action env (.ClosePluginPane plugin_pane_id)
    ("failed to change tab focus in plugin " ++ env.name)

/-- Embedding of `focus_terminal_pane`. -/
def focus_terminal_pane (env : PluginEnv) (terminal_pane_id : Nat)
    (should_float_if_hidden : Bool) : List Effect :=
  apply_action env (.FocusTerminalPaneWithId terminal_pane_id should_float_if_hidden)
    "Failed to focus terminal pane"

/-- Embedding of `focus_plugin_pane`. -/
def focus_plugin_pane (env : PluginEnv) (plugin_pane_id : Nat)
    (should_float_if_hidden : Bool) : List Effect :=
  apply_action env (.FocusPluginPaneWithId plugin_pane_id should_float_if_hidden)
    "Failed to focus plugin pane"

/-- Embedding of `rename_terminal_pane`; the new name's UTF-8 bytes are
modelled as the string's character codes. -/
def rename_terminal_pane (env : PluginEnv) (terminal_pane_id : Nat) (new_name : String) :
    List Effect :=
  apply_action env
    (.RenameTerminalPane terminal_pane_id (new_name.data.map Char.toNat))
    "Failed to rename terminal pane"

/-- Embedding of `rename_plugin_pane`. -/
def rename_plugin_pane (env : PluginEnv) (plugin_pane_id : Nat) (new_name : String) :
    List Effect :=
  apply_action env
    (.RenamePluginPane plugin_pane_id (new_name.data.map Char.toNat))
    "Failed to rename plugin pane"

/-- Embedding of `rename_tab`. -/
def rename_tab (env : PluginEnv) (tab_index : Nat) (new_name : String) : List Effect :=
  apply_action env (.RenameTab tab_index (new_name.data.map Char.toNat))
    "Failed to rename tab"

/-- Embedding of `report_panic`: log the guest-supplied diagnostic and
relay a crash notification to the plugin-lifecycle collaborator. -/
def report_panic (env : PluginEnv) (msg : String) : List Effect :=
  [Effect.LogError ("PANIC IN PLUGIN!\n\x0d" ++ msg),
   Effect.HandlePluginCrash env.plugin_id msg]

/-- Wraps an infallible handler's effects as a dispatch outcome. -/
def dispatchOk (subscriptions : Finset EventType) (effects : List Effect) :
    PanicOr DispatchOut :=
  .returned { result := .ok (), subscriptions := subscriptions, effects := effects }

/-- Wraps a fallible handler's `Result` as a dispatch outcome: on error the
handler produced no effects (its `?` fired before any send). -/
def dispatchLift (subscriptions : Finset EventType) (r : Except String (List Effect)) :
    PanicOr DispatchOut :=
  match r with
  | .ok effects =>
    .returned { result := .ok (), subscriptions := subscriptions, effects := effects }
  | .error e =>
    .returned { result := .error e, subscriptions := subscriptions, effects := [] }

/-- Embedding of the exhaustive match inside `host_run_plugin_command`: one
arm per `PluginCommand` variant, routed to its handler.  The wire
conversions performed inside arms (`input_mode.try_into()?`,
`cwd.path.try_into()?`) fail into the arm's `Result` exactly as in the
source, and the `Subscribe` arm keeps the registry mutation that happened
before a failed channel send. -/
def dispatch (host : Host) (env : PluginEnv) (command : PluginCommand)
    (subscriptions : Finset EventType) : PanicOr DispatchOut :=
  match command with
  | .Subscribe event_list =>
    let r := subscribe env event_list subscriptions
    match r.2 with
    | .ok effects =>
      .returned { result := .ok (), subscriptions := r.1, effects := effects }
    | .error e =>
      .returned { result := .error e, subscriptions := r.1, effects := [] }
  | .Unsubscribe event_list =>
    let r := unsubscribe env event_list subscriptions
    match r.2 with
    | .ok effects =>
      .returned { result := .ok (), subscriptions := r.1, effects := effects }
    | .error e =>
      .returned { result := .error e, subscriptions := r.1, effects := [] }
  | .SetSelectable selectable => dispatchOk subscriptions (set_selectable env selectable)
  | .GetPluginIds => dispatchOk subscriptions (get_plugin_ids host env)
  | .GetZellijVersion => dispatchOk subscriptions (get_zellij_version host env)
  | .OpenFile file_to_open => dispatchOk subscriptions (open_file env file_to_open)
  | .OpenFileFloating file_to_open =>
    dispatchOk subscriptions (open_file_floating env file_to_open)
  | .OpenTerminal cwd =>
    match host.path_try_into cwd.path with
    | .error e =>
      .returned { result := .error e, subscriptions := subscriptions, effects := [] }
    | .ok path => dispatchOk subscriptions (open_terminal env path)
  | .OpenTerminalFloating cwd =>
    match host.path_try_into cwd.path with
    | .error e =>
      .returned { result := .error e, subscriptions := subscriptions, effects := [] }
    | .ok path => dispatchOk subscriptions (open_terminal_floating env path)
  | .OpenCommandPane command_to_run =>
    dispatchOk subscriptions (open_command_pane env command_to_run)
  | .OpenCommandPaneFloating command_to_run =>
    dispatchOk subscriptions (open_command_pane_floating env command_to_run)
  | .SwitchTabTo tab_index => dispatchOk subscriptions (switch_tab_to env tab_index)
  | .SetTimeout seconds => dispatchOk subscriptions (set_timeout env seconds)
  | .ExecCmd command_line =>
    match exec_cmd host env command_line with
    | .panicked m => .panicked m
    | .returned effects => dispatchOk subscriptions effects
  | .PostMessageTo plugin_message =>
    dispatchLift subscriptions (post_message_to env plugin_message)
  | .PostMessageToPlugin plugin_message =>
    dispatchLift subscriptions (post_message_to_plugin env plugin_message)
  | .HideSelf => dispatchLift subscriptions (hide_self env)
  | .ShowSelf should_float_if_hidden =>
    dispatchOk subscriptions (show_self env should_float_if_hidden)
  | .SwitchToMode input_mode =>
    match host.input_mode_try_from input_mode with
    | .error e =>
      .returned { result := .error e, subscriptions := subscriptions, effects := [] }
    | .ok mode => dispatchOk subscriptions (switch_to_mode env mode)
  | .NewTabsWithLayout raw_layout =>
    dispatchLift subscriptions (new_tabs_with_layout host env raw_layout)
  | .NewTab => dispatchOk subscriptions (new_tab env)
  | .GoToNextTab => dispatchOk subscriptions (go_to_next_tab env)
  | .GoToPreviousTab => dispatchOk subscriptions (go_to_previous_tab env)
  | .Resize payload => dispatchOk subscriptions (resize env payload)
  | .ResizeWithDirection strategy =>
    dispatchOk subscriptions (resize_with_direction env strategy)
  | .FocusNextPane => dispatchOk subscriptions (focus_next_pane env)
  | .FocusPreviousPane => dispatchOk subscriptions (focus_previous_pane env)
  | .MoveFocus direction => dispatchOk subscriptions (move_focus env direction)
  | .MoveFocusOrTab direction => dispatchOk subscriptions (move_focus_or_tab env direction)
  | .Detach => dispatchOk subscriptions (detach env)
  | .EditScrollback => dispatchOk subscriptions (edit_scrollback env)
  | .Write bytes => dispatchOk subscriptions (write env bytes)
  | .WriteChars chars => dispatchOk subscriptions (write_chars env chars)
  | .ToggleTab => dispatchOk subscriptions (toggle_tab env)
  | .MovePane => dispatchOk subscriptions (move_pane env)
  | .MovePaneWithDirection direction =>
    dispatchOk subscriptions (move_pane_with_direction env direction)
  | .ClearScreen => dispatchOk subscriptions (clear_screen env)
  | .ScrollUp => dispatchOk subscriptions (scroll_up env)
  | .ScrollDown => dispatchOk subscriptions (scroll_down env)
  | .ScrollToTop => dispatchOk subscriptions (scroll_to_top env)
  | .ScrollToBottom => dispatchOk subscriptions (scroll_to_bottom env)
  | .PageScrollUp => dispatchOk subscriptions (page_scroll_up env)
  | .PageScrollDown => dispatchOk subscriptions (page_scroll_down env)
  | .ToggleFocusFullscreen => dispatchOk subscriptions (toggle_focus_fullscreen env)
  | .TogglePaneFrames => dispatchOk subscriptions (toggle_pane_frames env)
  | .TogglePaneEmbedOrEject => dispatchOk subscriptions (toggle_pane_embed_or_eject env)
  | .UndoRenamePane => dispatchOk subscriptions (undo_rename_pane env)
  | .CloseFocus => dispatchOk subscriptions (close_focus env)
  | .ToggleActiveTabSync => dispatchOk subscriptions (toggle_active_tab_sync env)
  | .CloseFocusedTab => dispatchOk subscriptions (close_focused_tab env)
  | .UndoRenameTab => dispatchOk subscriptions (undo_rename_tab env)
  | .QuitZellij => dispatchOk subscriptions (quit_zellij env)
  | .PreviousSwapLayout => dispatchOk subscriptions (previous_swap_layout env)
  | .NextSwapLayout => dispatchOk subscriptions (next_swap_layout env)
  | .GoToTabName tab_name => dispatchOk subscriptions (go_to_tab_name env tab_name)
  | .FocusOrCreateTab tab_name => dispatchOk subscriptions (focus_or_create_tab env tab_name)
  | .GoToTab tab_index => dispatchOk subscriptions (go_to_tab env tab_index)
  | .StartOrReloadPlugin plugin_url =>
    dispatchLift subscriptions (start_or_reload_plugin host env plugin_url)
  | .CloseTerminalPane terminal_pane_id =>
    dispatchOk subscriptions (close_terminal_pane env terminal_pane_id)
  | .ClosePluginPane plugin_pane_id =>
    dispatchOk subscriptions (close_plugin_pane env plugin_pane_id)
  | .FocusTerminalPane terminal_pane_id should_float_if_hidden =>
    dispatchOk subscriptions (focus_terminal_pane env terminal_pane_id should_float_if_hidden)
  | .FocusPluginPane plugin_pane_id should_float_if_hidden =>
    dispatchOk subscriptions (focus_plugin_pane env plugin_pane_id should_float_if_hidden)
  | .RenameTerminalPane terminal_pane_id new_name =>
    dispatchOk subscriptions (rename_terminal_pane env terminal_pane_id new_name)
  | .RenamePluginPane plugin_pane_id new_name =>
    dispatchOk subscriptions (rename_plugin_pane env plugin_pane_id new_name)
  | .RenameTab tab_index new_name =>
    dispatchOk subscriptions (rename_tab env tab_index new_name)
  | .ReportPanic crash_payload => dispatchOk subscriptions (report_panic env crash_payload)

/-- The decode pipeline of `host_run_plugin_command` before dispatch: read
and deserialize the guest's byte buffer, protobuf-decode the envelope, then
convert it to the internal command type, tagging the conversion's failure
as in the source. -/
def decode_stage (host : Host) (wasi_env : WasiEnv) : Except String PluginCommand :=
  match wasi_read_bytes host wasi_env with
  | .error e => .error e
  | .ok bytes =>
    match host.decode_command bytes with
    | .error e => .error e
    | .ok proto =>
      match host.command_try_into proto with
      | .error e => .error ("failed to convert serialized command: " ++ e)
      | .ok command => .ok command

/-- The log line produced by the dispatch boundary's
`.with_context(...).non_fatal()` for a caught failure. -/
def fail_log (env : PluginEnv) (e : String) : Effect :=
  .LogError ("failed to run plugin command " ++ env.name ++ ": " ++ e)

/-- Embedding of `host_run_plugin_command`: run the decode pipeline and
dispatch the command; any error from either stage is annotated with the
plugin's name, logged and swallowed, so that (panics aside) the guest call
returns normally with the registry state and effect trace the handler left
behind. -/
def host_run_plugin_command (host : Host) (env : PluginEnv)
    (subscriptions : Finset EventType) : PanicOr (Finset EventType × List Effect) :=
  match decode_stage host env.wasi_env with
  | .error e => .returned (subscriptions, [fail_log env e])
  | .ok command =>
    match dispatch host env command subscriptions with
    | .panicked m => .panicked m
    | .returned out =>
      match out.result with
      | .ok _ => .returned (out.subscriptions, out.effects)
      | .error e => .returned (out.subscriptions, out.effects ++ [fail_log env e])

/-- A concrete external-collaborator record for evaluating the model on
closed inputs: every parser succeeds in the simplest way. -/
def baseHost : Host :=
  { from_str_bytes := fun _ => .ok []
    decode_command := fun bytes => .ok { bytes := bytes }
    command_try_into := fun _ => .ok .NewTab
    layout_from_str := fun _ _ =>
      .ok { template := none, tabs := [], swap_tiled_layouts := [], swap_floating_layouts := [] }
    url_parse := fun s => .ok s
    run_plugin_location_parse := fun s _ => .ok { rendered := s }
    input_mode_try_from := fun _ => .ok .Normal
    path_try_into := fun s => .ok s
    plugin_ids_encode := fun _ => .ok []
    json_to_string := fun _ => .ok ""
    version := "0.37.2"
    zellij_version_encode := fun _ => []
    process_id := 7
    current_dir := some "/home/user"
    spawn := fun _ _ => .ok () }

/-- A concrete plugin environment for evaluating the model: pane-hosted,
exec permission denied, both channels up, guest channel open. -/
def baseEnv : PluginEnv :=
  { plugin_id := 1
    client_id := 2
    plugin :=
      { run := .Pane (some 0)
        location := "file:status-bar.wasm"
        _allow_exec_host_cmd := false }
    senders := { to_plugin := some (), to_screen := some () }
    default_shell := none
    name := "status-bar (1)"
    wasi_env := { stdin_open := true, stdout_contents := some "" }
    routing_fails := false }

/-- C3: subscribing twice accumulates the union of the requested key sets
over the starting registry, and the resulting set is idempotent and
commutative in the requested sets. -/
theorem subscribe_union_idempotent_commutative
    (env : PluginEnv) (A B S : Finset EventType) :
    (subscribe env B (subscribe env A S).1).1 = S ∪ A ∪ B ∧
    (subscribe env A (subscribe env A S).1).1 = (subscribe env A S).1 ∧
    (subscribe env B (subscribe env A S).1).1 = (subscribe env A (subscribe env B S).1).1 := by
  refine ⟨rfl, ?_, ?_⟩
  · simp [subscribe, Finset.union_assoc, Finset.union_self]
  · simp [subscribe, Finset.union_assoc, Finset.union_comm A B]

/-- C4: unsubscribing removes exactly the matching keys (set difference),
is a no-op on the empty registry, and cancels a subscribe from empty. -/
theorem unsubscribe_removes_exactly
    (env : PluginEnv) (A S : Finset EventType) :
    (unsubscribe env A S).1 = S \ A ∧
    (unsubscribe env A ∅).1 = ∅ ∧
    (unsubscribe env A (subscribe env A ∅).1).1 = ∅ := by
  refine ⟨?_, ?_, ?_⟩
  · ext x
    simp [unsubscribe]
  · simp [unsubscribe]
  · ext x
    simp [unsubscribe, subscribe]

/-- C5: with the plugin channel up, `subscribe(A)` sends exactly one
subscription-delta instruction carrying the key set `A` and the caller's
plugin and client ids, while `unsubscribe(A)` sends nothing on any channel
(empty effect trace). -/
theorem subscribe_notifies_unsubscribe_is_silent
    (env : PluginEnv) (A S : Finset EventType)
    (h : env.senders.to_plugin = some ()) :
    (subscribe env A S).2 =
      .ok [Effect.PluginInstr
        (.PluginSubscribedToEvents env.plugin_id env.client_id A)] ∧
    (unsubscribe env A S).2 = .ok [] := by
  constructor
  · simp [subscribe, ThreadSenders.send_to_plugin, h]
  · rfl

/-- Witnesses C5 at a concrete environment and key set. -/
theorem subscribe_notifies_unsubscribe_is_silent_witness :
    (subscribe baseEnv {EventType.Key, EventType.Timer} ∅).2 =
      .ok [Effect.PluginInstr
        (.PluginSubscribedToEvents 1 2 {EventType.Key, EventType.Timer})] ∧
    (unsubscribe baseEnv {EventType.Key, EventType.Timer} ∅).2 = .ok [] :=
  subscribe_notifies_unsubscribe_is_silent baseEnv {EventType.Key, EventType.Timer} ∅ rfl

/-- C8: `exec_cmd` on the empty command line panics (the unconditional
`remove(0)` fires before the permission check is reached), whatever the
environment and so whatever the exec-permission flag; on any non-empty
command line it returns normally. -/
theorem exec_cmd_total_iff_nonempty (host : Host) (env : PluginEnv) :
    (exec_cmd host env []).isPanicked = true ∧
    (∀ cmd args, (exec_cmd host env (cmd :: args)).isPanicked = false) := by
  constructor
  · rfl
  · intro cmd args
    cases h : env.plugin._allow_exec_host_cmd with
    | false => simp [exec_cmd, h, PanicOr.isPanicked]
    | true =>
      cases hs : host.spawn cmd args <;>
        simp [exec_cmd, h, hs, PanicOr.isPanicked]

/-- An environment whose external `route_action` collaborator fails, so
every forwarded action takes the `apply_action!` macro's error branch. -/
def routingFailEnv : PluginEnv :=
  { baseEnv with routing_fails := true }

/-- C1 counterexample: a routing failure on a decoded `NewTab` command is
caught and swallowed (the call returns normally), but its log line is the
per-command message "Failed to open new tab: routing error", and the
plugin's name occurs nowhere in that message — so not every caught failure
is annotated with a message naming the plugin. -/
theorem routing_error_log_without_plugin_name_counterexample :
    routingFailEnv.routing_fails = true ∧
    host_run_plugin_command baseHost routingFailEnv ∅ =
      .returned (∅,
        [Effect.ActionForward (Action.NewTab none [] none none none) 2,
         Effect.LogError "Failed to open new tab: routing error"]) ∧
    ¬ (routingFailEnv.name.data <:+: ("Failed to open new tab: routing error").data) :=
  ⟨rfl, rfl, by decide⟩

/-- C1 as amended: every failure of a command handler is caught, logged
and swallowed, and the call returns normally.  Failures caught at the
dispatch boundary — decode, conversion, handler-result and channel errors —
are annotated with the contextual message naming the plugin, and on a
decode or conversion failure the registry is returned unchanged with no
other effect; a routing failure is caught inside the handler, logged once
with the per-command contextual message (which does not always name the
plugin), and leaves the handler's result a success, so the run returns
normally with the handler's trace. -/
theorem host_run_plugin_command_swallows_all_failures
    (host : Host) (env : PluginEnv) (S : Finset EventType) :
    (∀ e, decode_stage host env.wasi_env = .error e →
      host_run_plugin_command host env S = .returned (S, [fail_log env e])) ∧
    (∀ command out e, decode_stage host env.wasi_env = .ok command →
      dispatch host env command S = .returned out →
      out.result = .error e →
      host_run_plugin_command host env S =
        .returned (out.subscriptions, out.effects ++ [fail_log env e])) ∧
    (∀ command out, decode_stage host env.wasi_env = .ok command →
      dispatch host env command S = .returned out →
      out.result = .ok () →
      host_run_plugin_command host env S = .returned (out.subscriptions, out.effects)) ∧
    (∀ action error_msg, env.routing_fails = true →
      apply_action env action error_msg =
        [Effect.ActionForward action env.client_id,
         Effect.LogError (error_msg ++ ": routing error")]) := by
  refine ⟨?_, ?_, ?_, ?_⟩
  · intro e he
    simp [host_run_plugin_command, he]
  · intro command out e hc hd hr
    simp [host_run_plugin_command, hc, hd, hr]
  · intro command out hc hd hr
    simp [host_run_plugin_command, hc, hd, hr]
  · intro action error_msg hr
    simp [apply_action, hr]

/-- A host whose conversion stage rejects every envelope, driving the
decode pipeline into its conversion-failure branch. -/
def badConvertHost : Host :=
  { baseHost with command_try_into := fun _ => .error "unknown command tag" }

/-- Witnesses the amended C1: a concrete conversion failure returns
normally with exactly the plugin-naming log line and the registry it was
given, and a concrete routing failure is swallowed into one per-command
log line. -/
theorem host_run_plugin_command_swallows_all_failures_witness :
    decode_stage badConvertHost baseEnv.wasi_env =
      .error "failed to convert serialized command: unknown command tag" ∧
    host_run_plugin_command badConvertHost baseEnv {EventType.Key} =
      .returned ({EventType.Key},
        [fail_log baseEnv "failed to convert serialized command: unknown command tag"]) ∧
    apply_action routingFailEnv Action.Detach "Failed to detach" =
      [Effect.ActionForward Action.Detach 2,
       Effect.LogError "Failed to detach: routing error"] :=
  ⟨rfl,
    (host_run_plugin_command_swallows_all_failures badConvertHost baseEnv {EventType.Key}).1
      "failed to convert serialized command: unknown command tag" rfl,
    (host_run_plugin_command_swallows_all_failures badConvertHost routingFailEnv ∅).2.2.2
      Action.Detach "Failed to detach" rfl⟩

/-- C2 counterexample: on the empty command line, with exec permission
denied, `exec_cmd` does not return at all (the `remove(0)` panics first),
so it does not produce the claimed single warning entry. -/
theorem exec_cmd_denied_empty_line_counterexample :
    baseEnv.plugin._allow_exec_host_cmd = false ∧
    exec_cmd baseHost baseEnv [] =
      .panicked "removal index (is 0) should be < len (is 0)" :=
  ⟨rfl, rfl⟩

/-- C2 as amended: for every non-empty command line, with the
exec-permission flag false, `exec_cmd` spawns no process, emits exactly one
warning log entry naming the blocked command, and returns normally with no
other effect. -/
theorem exec_cmd_denied_warns_once_and_spawns_nothing
    (host : Host) (env : PluginEnv) (cmd : String) (args : List String)
    (h : env.plugin._allow_exec_host_cmd = false) :
    exec_cmd host env (cmd :: args) =
      .returned [Effect.LogWarn (exec_cmd_warning cmd args)] := by
  simp [exec_cmd, h]

/-- Witnesses the amended C2 at a concrete denied environment. -/
theorem exec_cmd_denied_warns_once_and_spawns_nothing_witness :
    baseEnv.plugin._allow_exec_host_cmd = false ∧
    exec_cmd baseHost baseEnv ["ls", "-la"] =
      .returned [Effect.LogWarn (exec_cmd_warning "ls" ["-la"])] :=
  ⟨rfl, exec_cmd_denied_warns_once_and_spawns_nothing baseHost baseEnv "ls" ["-la"] rfl⟩

/-- The newline replacement, characterized: each newline becomes newline
plus carriage return, all other characters are kept. -/
theorem replaceNewline_eq_flatMap (cs : List Char) :
    replaceNewline cs =
      cs.flatMap (fun c => if c = '\n' then ['\n', '\x0d'] else [c]) := by
  induction cs with
  | nil => rfl
  | cons c cs ih =>
    by_cases h : c = '\n' <;> simp [replaceNewline, h, ih]

/-- C7: the read path returns the guest's buffered output with every bare
newline replaced by newline-carriage-return, and hands exactly that
replaced string to the deserializer; the write path writes the buffer
followed by a carriage return and the newline delimiter. -/
theorem wasi_io_line_discipline (w : WasiEnv) (buf out : String) :
    (w.stdout_contents = some buf →
      wasi_read_string w = .ok (String.replaceNewline buf) ∧
      (String.replaceNewline buf).data =
        buf.data.flatMap (fun c => if c = '\n' then ['\n', '\x0d'] else [c])) ∧
    (∀ host : Host, ∀ bytes, w.stdout_contents = some buf →
      host.from_str_bytes (String.replaceNewline buf) = .ok bytes →
      wasi_read_bytes host w = .ok bytes) ∧
    (w.stdin_open = true →
      wasi_write_string w out = .ok [Effect.GuestWrite (out ++ "\x0d\n")]) := by
  refine ⟨?_, ?_, ?_⟩
  · intro h
    refine ⟨by simp [wasi_read_string, h], ?_⟩
    simpa [String.replaceNewline] using replaceNewline_eq_flatMap buf.data
  · intro host bytes h hd
    simp [wasi_read_bytes, wasi_read_string, h, hd]
  · intro h
    simp [wasi_write_string, h]

/-- Witnesses C7 at a concrete guest buffer with an interior newline. -/
theorem wasi_io_line_discipline_witness :
    wasi_read_string { stdin_open := true, stdout_contents := some "a\nb" } =
      .ok (String.replaceNewline "a\nb") ∧
    String.replaceNewline "a\nb" = "a\n\x0db" ∧
    wasi_write_string { stdin_open := true, stdout_contents := some "a\nb" } "ok" =
      .ok [Effect.GuestWrite ("ok" ++ "\x0d\n")] :=
  ⟨((wasi_io_line_discipline { stdin_open := true, stdout_contents := some "a\nb" }
      "a\nb" "ok").1 rfl).1,
    by decide,
    (wasi_io_line_discipline { stdin_open := true, stdout_contents := some "a\nb" }
      "a\nb" "ok").2.2 rfl⟩

/-- C6: each of N `set_timeout` calls spawns its own timer thread whose
task addresses `Some plugin_id` and the caller's client id; for any sleeps
obeying the OS contract (a sleep lasts at least the requested delay), the N
threads publish N independent Timer events, each carrying a measured
elapsed time that is at least the requested duration and addressed to the
caller's plugin and client ids; a thread whose captured sender handle is
gone logs the failure non-fatally instead. -/
theorem set_timeout_produces_timer_events
    (env : PluginEnv) (secs : ℚ) (N : Nat) (sleeps : List (ℚ → ℚ))
    (hlen : sleeps.length = N)
    (hsleep : ∀ f ∈ sleeps, ∀ d, d ≤ f d)
    (hch : env.senders.to_plugin = some ()) :
    set_timeout env secs = [Effect.SpawnTimerThread (set_timeout_task env secs)] ∧
    (sleeps.map (timer_thread (set_timeout_task env secs))).length = N ∧
    (∀ effs ∈ sleeps.map (timer_thread (set_timeout_task env secs)),
      ∃ elapsed, secs ≤ elapsed ∧
        effs = [Effect.PluginInstr (.Update
          [(some env.plugin_id, some env.client_id, Event.Timer elapsed)])]) ∧
    (∀ task : TimerTask, ∀ f, task.send_plugin_instructions = none →
      timer_thread task f =
        [Effect.LogError ("failed to set host timeout for plugin " ++
          task.plugin_name ++ ": found no sender to send plugin instruction to")]) := by
  refine ⟨rfl, by simp [hlen], ?_, ?_⟩
  · intro effs hmem
    rw [List.mem_map] at hmem
    obtain ⟨f, hf, rfl⟩ := hmem
    exact ⟨f secs, hsleep f hf secs,
      by simp [timer_thread, set_timeout_task, hch]⟩
  · intro task f hnone
    simp [timer_thread, hnone]

/-- Witnesses C6 with two concrete timers whose sleeps are exact. -/
theorem set_timeout_produces_timer_events_witness :
    set_timeout baseEnv 2 = [Effect.SpawnTimerThread (set_timeout_task baseEnv 2)] ∧
    ([fun d => d, fun d => d + 1].map (timer_thread (set_timeout_task baseEnv 2))).length = 2 :=
  ⟨(set_timeout_produces_timer_events baseEnv 2 2 [fun d => d, fun d => d + 1] rfl
      (by
        intro f hf d
        rcases List.mem_cons.mp hf with h | h
        · rw [h]
        · rw [List.mem_singleton.mp h]
          exact le_of_lt (lt_add_one d)) rfl).1,
    (set_timeout_produces_timer_events baseEnv 2 2 [fun d => d, fun d => d + 1] rfl
      (by
        intro f hf d
        rcases List.mem_cons.mp hf with h | h
        · rw [h]
        · rw [List.mem_singleton.mp h]
          exact le_of_lt (lt_add_one d)) rfl).2.1⟩

/-- C9: whatever URL `start_or_reload_plugin` accepts and however the
external parsers behave, any `StartOrReloadPlugin` action it hands to the
router carries a `RunPlugin` whose exec-host-command permission is false. -/
theorem start_or_reload_plugin_never_grants_exec
    (host : Host) (env : PluginEnv) (url : String) (effs : List Effect)
    (rp : RunPlugin) (cid : Nat)
    (h : start_or_reload_plugin host env url = .ok effs)
    (hmem : Effect.ActionForward (Action.StartOrReloadPlugin rp) cid ∈ effs) :
    rp._allow_exec_host_cmd = false := by
  unfold start_or_reload_plugin at h
  split at h
  · exact absurd h (by simp)
  · dsimp only at h
    split at h
    · exact absurd h (by simp)
    · simp only [Except.ok.injEq] at h
      subst h
      by_cases hr : env.routing_fails <;>
        simp [apply_action, hr] at hmem <;>
        simp [hmem.1]

/-- Witnesses C9 at a concrete host and URL where both parses succeed. -/
theorem start_or_reload_plugin_never_grants_exec_witness :
    start_or_reload_plugin baseHost baseEnv "file:counter.wasm" =
      .ok [Effect.ActionForward
        (Action.StartOrReloadPlugin
          { location := { rendered := "file:counter.wasm" },
            _allow_exec_host_cmd := false }) 2] ∧
    ({ location := { rendered := "file:counter.wasm" },
       _allow_exec_host_cmd := false } : RunPlugin)._allow_exec_host_cmd = false :=
  ⟨rfl,
    start_or_reload_plugin_never_grants_exec baseHost baseEnv "file:counter.wasm" _
      { location := { rendered := "file:counter.wasm" }, _allow_exec_host_cmd := false }
      2 rfl (List.mem_singleton.mpr rfl)⟩

/-- C10: `PostMessageTo` without a worker name errors and sends nothing;
`PostMessageToPlugin` with a worker name errors and sends nothing; in both
cases the dispatch boundary swallows the error, so the guest call returns
normally with only the annotated log line and an unchanged registry. -/
theorem post_message_worker_name_validation
    (env : PluginEnv) (m : PluginMessage) :
    (m.worker_name = none →
      post_message_to env m = .error "Worker name not specified in message to worker") ∧
    (∀ w, m.worker_name = some w →
      post_message_to_plugin env m =
        .error ("Worker name (\"" ++ w ++ "\") should not be specified in message to plugin")) ∧
    (∀ host : Host, ∀ S : Finset EventType, m.worker_name = none →
      decode_stage host env.wasi_env = .ok (.PostMessageTo m) →
      host_run_plugin_command host env S =
        .returned (S, [fail_log env "Worker name not specified in message to worker"])) ∧
    (∀ host : Host, ∀ S : Finset EventType, ∀ w, m.worker_name = some w →
      decode_stage host env.wasi_env = .ok (.PostMessageToPlugin m) →
      host_run_plugin_command host env S =
        .returned (S, [fail_log env
          ("Worker name (\"" ++ w ++ "\") should not be specified in message to plugin")])) := by
  refine ⟨?_, ?_, ?_, ?_⟩
  · intro h
    simp [post_message_to, h]
  · intro w h
    simp [post_message_to_plugin, h]
  · intro host S h hd
    simp [host_run_plugin_command, hd, dispatch, dispatchLift, post_message_to, h]
  · intro host S w h hd
    simp [host_run_plugin_command, hd, dispatch, dispatchLift, post_message_to_plugin, h]

/-- A message to a worker that names no worker. -/
def noWorkerMessage : PluginMessage :=
  { name := "update", payload := "42", worker_name := none }

/-- A host whose conversion stage always yields `PostMessageTo` with the
worker-less message. -/
def postMessageToHost : Host :=
  { baseHost with command_try_into := fun _ => .ok (.PostMessageTo noWorkerMessage) }

/-- Witnesses C10 at a concrete worker-less message driven through the full
call: the error is swallowed into one log line and the registry is kept. -/
theorem post_message_worker_name_validation_witness :
    post_message_to baseEnv noWorkerMessage =
      .error "Worker name not specified in message to worker" ∧
    host_run_plugin_command postMessageToHost baseEnv {EventType.Key} =
      .returned ({EventType.Key},
        [fail_log baseEnv "Worker name not specified in message to worker"]) :=
  ⟨(post_message_worker_name_validation baseEnv noWorkerMessage).1 rfl,
    (post_message_worker_name_validation baseEnv noWorkerMessage).2.2.1
      postMessageToHost {EventType.Key} rfl rfl⟩

end Zellij
